import Mathlib

/-!
# Verification of the ThonLabs environment-configuration and email cores

A shallow embedding of the environment key-value configuration service
(`EnvironmentDataService`, `EnvironmentDataController`), the Prisma schema
constraints relevant to `EnvironmentData`, and the email pipeline
(`EmailService.send`, `EmailService.sendInternal`), together with theorems
settling the specification claims about them.

External collaborators (the relational store, the `ejs` text-template
evaluator, the outbound `resend` transport, the component-to-markup
renderer) are modelled as explicit parameters or as executable functions
mirroring their documented interfaces.
-/

deriving instance DecidableEq for Except

/-! ## JSON values (the `Json` column type of `EnvironmentData.value`) -/

/-- Structured JSON values, as stored in the `value` column of
`environment_data` (`value Json` in the Prisma schema). -/
inductive Json where
  | null : Json
  | bool : Bool → Json
  | num : Int → Json
  | str : String → Json
deriving DecidableEq, Repr

/-! ## Key normalization: lodash `camelCase`

`EnvironmentDataService` normalizes caller-supplied keys with lodash's
`camelCase`.  The model below reproduces lodash's behaviour for ASCII
input: apostrophes are removed, the string is split into words (maximal
digit runs; letter runs split at lower→upper transitions and before the
final upper of an upper run that is followed by a lower), the first word
is lowercased and every later word is lowercased and then capitalized.
(`deburr` is the identity on ASCII and the ordinal-suffix word rule of
lodash is not modelled; every concrete key that appears in a theorem
below is plain ASCII without ordinal suffixes.) -/

/-- Chunk classification used by the word scanner. -/
inductive ChunkKind where
  | start : ChunkKind
  | digits : ChunkKind
  | lowers : ChunkKind
  | uppers : ChunkKind
deriving DecidableEq, Repr

/-- ASCII decimal digit test. -/
def isAsciiDigit (c : Char) : Bool := '0' ≤ c && c ≤ '9'

/-- ASCII lowercase letter test. -/
def isAsciiLower (c : Char) : Bool := 'a' ≤ c && c ≤ 'z'

/-- ASCII uppercase letter test. -/
def isAsciiUpper (c : Char) : Bool := 'A' ≤ c && c ≤ 'Z'

/-- Close the current chunk (stored reversed) and push it onto the
accumulator of finished words (also reversed). -/
def flushChunk (cur : List Char) (acc : List (List Char)) : List (List Char) :=
  match cur with
  | [] => acc
  | _ => cur.reverse :: acc

/-- Word scanner: models lodash `words` on ASCII input.  `cur` is the
current chunk in reverse order, `acc` the finished words in reverse
order. -/
def wordsGo : List Char → ChunkKind → List Char → List (List Char) → List (List Char)
  | [], _, cur, acc => (flushChunk cur acc).reverse
  | c :: cs, k, cur, acc =>
    if isAsciiDigit c then
      match k with
      | .digits => wordsGo cs .digits (c :: cur) acc
      | _ => wordsGo cs .digits [c] (flushChunk cur acc)
    else if isAsciiLower c then
      match k with
      | .lowers => wordsGo cs .lowers (c :: cur) acc
      | .uppers =>
        match cur with
        | [u] => wordsGo cs .lowers [c, u] acc
        | u :: rest => wordsGo cs .lowers [c, u] (flushChunk rest acc)
        | [] => wordsGo cs .lowers [c] acc
      | _ => wordsGo cs .lowers [c] (flushChunk cur acc)
    else if isAsciiUpper c then
      match k with
      | .uppers => wordsGo cs .uppers (c :: cur) acc
      | _ => wordsGo cs .uppers [c] (flushChunk cur acc)
    else
      wordsGo cs .start [] (flushChunk cur acc)

/-- lodash removes ASCII and typographic apostrophes before splitting
into words. -/
def stripApostrophes (s : String) : List Char :=
  s.data.filter (fun c => !(c == '\'' || c == '’'))

/-- lodash `words` (ASCII model). -/
def lodashWords (s : String) : List (List Char) :=
  wordsGo (stripApostrophes s) .start [] []

/-- lodash `upperFirst` of the lowercased word, as used by
`camelCase` for every word after the first. -/
def capitalizeWord (w : List Char) : List Char :=
  match w.map Char.toLower with
  | [] => []
  | c :: cs => Char.toUpper c :: cs

/-- lodash `camelCase` (ASCII model): first word fully lowercased, later
words lowercased then capitalized, all joined without separators. -/
def camelCase (s : String) : String :=
  match lodashWords s with
  | [] => ""
  | w :: ws => String.mk (w.map Char.toLower ++ (ws.map capitalizeWord).flatten)

/-- Modelled from the spec: `prepareString`
(`@/utils/services/prepare-string`, absent from the sources) trims and
sanitizes the untrusted caller-supplied key before normalization;
modelled as whitespace trimming. -/
def prepareString (s : String) : String :=
  String.mk (((s.data.dropWhile Char.isWhitespace).reverse.dropWhile
    Char.isWhitespace).reverse)

/-! ## The `environment_data` table and its service -/

/-- One row of `environment_data`.  Schema:
`id String @id`, `value Json`, `environmentId String` (relation to
`environments`, cascade on delete/update); timestamps are not modelled. -/
structure EnvDataRow where
  id : String
  value : Json
  environmentId : String
deriving DecidableEq, Repr

/-- The `environment_data` table state. -/
abbrev Store : Type := List EnvDataRow

/-- The schema constraint carried by `id String @id`: the `id` column is
the single-column primary key of `environment_data`, so ids are unique
across the whole table (not per environment). -/
def Store.globalIdUnique (s : Store) : Prop :=
  s.Pairwise (fun a b => a.id ≠ b.id)

/-- Database errors surfaced by the store. -/
inductive DbError where
  | uniqueViolation : DbError
deriving DecidableEq, Repr

/-- `StatusCodes` of `errors-metadata` (the members used here). -/
inductive StatusCodes where
  | OK : StatusCodes
  | Created : StatusCodes
  | NotFound : StatusCodes
deriving DecidableEq, Repr

/-- `DataReturn<T>`: either data, or a status code with an error
message. -/
inductive DataReturn (α : Type) where
  | ok : α → DataReturn α
  | err : StatusCodes → String → DataReturn α
deriving DecidableEq, Repr

/-- The row lookup shared by `get` and the `where` clauses of the
service: Prisma `findUnique({ where: { id: camelCase(id), environmentId } })`
— the primary key `id` plus the extra `environmentId` filter. -/
def EnvironmentDataService.lookupRow (store : Store) (environmentId id : String) :
    Option EnvDataRow :=
  store.find? (fun r => r.id == camelCase id && r.environmentId == environmentId)

/-- `EnvironmentDataService.get`: normalizes the id with `camelCase`,
returns the row's value or a NotFound `DataReturn`. -/
def EnvironmentDataService.get (store : Store) (environmentId id : String) :
    DataReturn Json :=
  match EnvironmentDataService.lookupRow store environmentId id with
  | none => .err .NotFound ("Environment data ID " ++ id ++ " not found")
  | some r => .ok r.value

/-- `EnvironmentDataService.upsert`:
`const id = camelCase(prepareString(payload.id))`, then a Prisma upsert
whose `where` clause is `{ id: camelCase(id), environmentId }` (note the
second application of `camelCase`) and whose `create` row uses `id`.
When the `where` lookup finds a row its `value` is replaced; otherwise a
create is attempted, which violates the single-column primary key when
any row (under any environment) already carries the create id. -/
def EnvironmentDataService.upsert (store : Store) (environmentId payloadId : String)
    (value : Json) : Except DbError (Store × EnvDataRow) :=
  let id := camelCase (prepareString payloadId)
  match store.find? (fun r => r.id == camelCase id && r.environmentId == environmentId) with
  | some r0 =>
      Except.ok
        (store.map (fun r =>
          if r.id == camelCase id && r.environmentId == environmentId then
            { r with value := value }
          else r),
         { r0 with value := value })
  | none =>
      if store.any (fun r => r.id == id) then
        Except.error DbError.uniqueViolation
      else
        Except.ok (store ++ [⟨id, value, environmentId⟩], ⟨id, value, environmentId⟩)

/-- `EnvironmentDataService.delete`: calls `get` with the raw id; on a
NotFound result it forwards the status code and leaves the table
untouched, otherwise it deletes the row matched by
`{ id: camelCase(id), environmentId }`.  The success value of the
service method is `undefined`, modelled as `none`. -/
def EnvironmentDataService.delete (store : Store) (environmentId id : String) :
    Store × Option (StatusCodes × String) :=
  match EnvironmentDataService.get store environmentId id with
  | .err c e => (store, some (c, e))
  | .ok _ =>
      (store.filter (fun r => !(r.id == camelCase id && r.environmentId == environmentId)),
       none)

/-- `EnvironmentDataService.fetch`: declared as
`fetch(environmentId: string)` — it takes no key list — and returns the
mapping built from every `environment_data` row of the environment. -/
def EnvironmentDataService.fetch (store : Store) (environmentId : String) :
    List (String × Json) :=
  (store.filter (fun r => r.environmentId == environmentId)).map
    (fun r => (r.id, r.value))

/-! ## The environment/project/user/template tables used by the email
pipeline -/

/-- The five built-in email template types (`enum EmailTemplates`). -/
inductive EmailTemplates where
  | Welcome : EmailTemplates
  | MagicLink : EmailTemplates
  | ConfirmEmail : EmailTemplates
  | ForgotPassword : EmailTemplates
  | Invite : EmailTemplates
deriving DecidableEq, Repr

/-- One row of `emails_templates` (the columns consumed by
`EmailService.send`). -/
structure EmailTemplate where
  type : EmailTemplates
  name : String
  subject : String
  fromName : String
  fromEmail : String
  content : String
  preview : Option String
  replyTo : Option String
  enabled : Bool
  environmentId : String
deriving DecidableEq, Repr

/-- One row of `environments` (the columns selected by
`EmailService.getEnvironmentData`). -/
structure EnvRow where
  id : String
  name : String
  appURL : Option String
  projectId : String
deriving DecidableEq, Repr

/-- One row of `projects` (the columns selected through the
`project` relation). -/
structure ProjectRow where
  id : String
  appName : String
deriving DecidableEq, Repr

/-- One row of `users` (the columns selected by
`EmailService.getUserData`). -/
structure UserRow where
  id : String
  fullName : Option String
  email : String
  lastSignIn : Option String
  emailConfirmed : Bool
  profilePicture : Option String
deriving DecidableEq, Repr

/-- The relational store consumed by the email pipeline. -/
structure Db where
  emailTemplates : List EmailTemplate
  environments : List EnvRow
  projects : List ProjectRow
  users : List UserRow
deriving DecidableEq, Repr

/-- The project summary nested in the environment summary. -/
structure ProjectSummary where
  id : String
  appName : String
deriving DecidableEq, Repr

/-- The environment summary merged into the template data context:
id, name, appURL and the owning project's id/appName. -/
structure EnvSummary where
  id : String
  name : String
  appURL : Option String
  project : Option ProjectSummary
deriving DecidableEq, Repr

/-- The user summary merged into the template data context, together
with the derived `firstName`. -/
structure UserCtx where
  id : String
  fullName : Option String
  email : String
  lastSignIn : Option String
  emailConfirmed : Bool
  profilePicture : Option String
  firstName : Option String
deriving DecidableEq, Repr

/-- The flat data context evaluated by the text-template passes — the
shape of `SendEmailParams.data` after the enrichment steps, plus the
`preview` key that `send` injects before evaluating `content` (absent
until then). -/
structure SendData where
  token : Option String := none
  environment : Option EnvSummary := none
  user : Option UserCtx := none
  inviter : Option UserCtx := none
  publicKey : Option String := none
  preview : Option String := none
deriving DecidableEq, Repr

/-- Logger lines of the email pipeline, abstracted to their structured
content (the source formats these as strings carrying exactly these
arguments). -/
inductive LogEntry where
  | renderError (templateType : EmailTemplates) (environmentId : String)
  | dispatchError (templateType : EmailTemplates) (environmentId : String)
  | sent (templateType : EmailTemplates)
  | scheduled (templateType : EmailTemplates)
  | internalSent (subject : String)
  | internalDispatchError (subject : String)
  | invalidInternalFrom (channel : String)
deriving DecidableEq, Repr

/-- The tuple handed to the outbound transport
(`resend.emails.send`). -/
structure Payload where
  fromAddr : String
  toAddr : String
  subject : Option String
  html : Option String
  replyTo : Option String
  scheduledAt : Option String
deriving DecidableEq, Repr

/-- Outcome of a `send`/`sendInternal` call: whether the promise
resolved or rejected, the log lines, and every payload handed to the
outbound transport. -/
structure SendResult where
  result : Except String Unit
  logs : List LogEntry
  calls : List Payload
deriving Repr

/-- JS string interpolation of a possibly-undefined value, as in the
template literal building the `from` header. -/
def jsShow : Option String → String
  | none => "undefined"
  | some s => s

/-- JS truthiness of an optional string parameter (`if (userId)`). -/
def jsTruthy : Option String → Bool
  | none => false
  | some s => s != ""

/-- The model error for reading a property of a `null` lookup result
(`user.fullName` when `getUserData` returned `null`). -/
def nullUserError : String := "TypeError: Cannot read properties of null"

/-- Modelled from the spec: `EmailTemplateService.getByType`
(`email-template.service.ts`, absent from the sources) resolves the
enabled `EmailTemplate` row of the given type for the environment and
fails — produces no template value — when none is found or it is
disabled. -/
def getByType (db : Db) (t : EmailTemplates) (environmentId : String) :
    Option EmailTemplate :=
  db.emailTemplates.find? (fun e =>
    decide (e.type = t) && e.environmentId == environmentId && e.enabled)

/-- `EmailService.getEnvironmentData`: `findUnique` on `environments`
selecting id, name, appURL and the project summary. -/
def getEnvironmentData (db : Db) (environmentId : String) : Option EnvSummary :=
  match db.environments.find? (fun e => e.id == environmentId) with
  | none => none
  | some e =>
      some { id := e.id, name := e.name, appURL := e.appURL,
             project := (db.projects.find? (fun p => p.id == e.projectId)).map
               (fun p => { id := p.id, appName := p.appName }) }

/-- `EmailService.getUserData`: `findUnique` on `users`. -/
def getUserData (db : Db) (userId : String) : Option UserRow :=
  db.users.find? (fun u => u.id == userId)

/-- Modelled from the spec: `getFirstName` (`names-helpers`, absent from
the sources) extracts the first name from the user's full name. -/
def getFirstName (fullName : Option String) : String :=
  (((prepareString (jsShow fullName)).splitOn " ").headD "")

/-- The user summary spread into the context:
`{ ...user, firstName: getFirstName(user.fullName) }`. -/
def mkUserCtx (u : UserRow) : UserCtx :=
  { id := u.id, fullName := u.fullName, email := u.email,
    lastSignIn := u.lastSignIn, emailConfirmed := u.emailConfirmed,
    profilePicture := u.profilePicture,
    firstName := some (getFirstName u.fullName) }

/-- The context-enrichment prefix of `EmailService.send`: start from the
caller's `data` (or `{}`), overwrite `environment` with a fresh store
lookup when `environmentId` is truthy, then overwrite `user` with a fresh
store lookup when `userId` is truthy.  Reading `user.fullName` after a
`null` user lookup is an uncaught TypeError, so that case rejects. -/
def buildEmailData (db : Db) (environmentId : String) (userId : Option String)
    (data : Option SendData) : Except String SendData :=
  let d0 := data.getD {}
  let d1 :=
    if environmentId != "" then
      { d0 with environment := getEnvironmentData db environmentId }
    else d0
  if jsTruthy userId then
    match getUserData db (userId.getD "") with
    | none => Except.error nullUserError
    | some u => Except.ok { d1 with user := some (mkUserCtx u) }
  else Except.ok d1

/-- Values present after the template-evaluation `try` block: the three
locals (`undefined` when the block threw before assigning them) and the
log line of the `catch`. -/
structure RenderOut where
  fromName : Option String
  subject : Option String
  html : Option String
  logs : List LogEntry
deriving DecidableEq, Repr

/-- The first `try` block of `EmailService.send`: evaluate `fromName`,
`subject`, then `content` against the context extended with the
evaluated `preview` (the inner `ejs.render(emailTemplate.preview,
emailData)` runs first).  A thrown evaluation — or the property access
on a missing template — is caught and logged with the template type and
environment id; locals assigned before the throw keep their values. -/
def renderPhase (ejs : Option String → SendData → Except String String)
    (t? : Option EmailTemplate) (d : SendData)
    (emailTemplateType : EmailTemplates) (environmentId : String) : RenderOut :=
  match t? with
  | none => ⟨none, none, none, [.renderError emailTemplateType environmentId]⟩
  | some t =>
    match ejs (some t.fromName) d with
    | .error _ => ⟨none, none, none, [.renderError emailTemplateType environmentId]⟩
    | .ok fn =>
      match ejs (some t.subject) d with
      | .error _ => ⟨some fn, none, none, [.renderError emailTemplateType environmentId]⟩
      | .ok sj =>
        match ejs t.preview d with
        | .error _ => ⟨some fn, some sj, none, [.renderError emailTemplateType environmentId]⟩
        | .ok p =>
          match ejs (some t.content) { d with preview := some p } with
          | .error _ => ⟨some fn, some sj, none, [.renderError emailTemplateType environmentId]⟩
          | .ok h => ⟨some fn, some sj, some h, []⟩

/-- The argument object of `resend.emails.send` as `EmailService.send`
builds it: the `from` template literal interpolates the possibly
undefined rendered from-name around the template row's `fromEmail`. -/
def mkPayload (t : EmailTemplate) (r : RenderOut) (toAddr : String)
    (scheduledAt : Option String) : Payload :=
  { fromAddr := jsShow r.fromName ++ " <" ++ t.fromEmail ++ ">",
    toAddr := toAddr, subject := r.subject, html := r.html,
    replyTo := t.replyTo, scheduledAt := scheduledAt }

/-- The second `try` block of `EmailService.send` (dispatch).  It runs
unconditionally after the render phase: building the `from` header reads
`emailTemplate.fromEmail`, which on a missing template is a TypeError
caught by this block's `catch` (logged, no transport call); otherwise
the transport is invoked once with whatever the render phase produced,
a success is logged as sent/scheduled, and a transport failure is caught
and logged.  Log lines accumulate after those of the render phase. -/
def dispatchPhase (transport : Payload → Except String Unit)
    (emailTemplateType : EmailTemplates) (environmentId : String)
    (t? : Option EmailTemplate) (r : RenderOut)
    (toAddr : String) (scheduledAt : Option String) : SendResult :=
  match t? with
  | none =>
      ⟨.ok (), r.logs ++ [.dispatchError emailTemplateType environmentId], []⟩
  | some t =>
      match transport (mkPayload t r toAddr scheduledAt) with
      | .ok _ =>
          ⟨.ok (),
           r.logs ++ [if scheduledAt.isSome then .scheduled emailTemplateType
                      else .sent emailTemplateType],
           [mkPayload t r toAddr scheduledAt]⟩
      | .error _ =>
          ⟨.ok (), r.logs ++ [.dispatchError emailTemplateType environmentId],
           [mkPayload t r toAddr scheduledAt]⟩

/-- `EmailService.send`.  Control flow of the source: resolve the
template by type (`getByType`, awaited first), enrich the context
(environment then user — an uncaught TypeError there rejects the call),
run the template-evaluation `try` block, then run the dispatch `try`
block unconditionally.  The parameters `ejs` and `transport` are the
external collaborators. -/
def send (db : Db) (ejs : Option String → SendData → Except String String)
    (transport : Payload → Except String Unit)
    (toAddr : String) (emailTemplateType : EmailTemplates) (environmentId : String)
    (userId : Option String) (data : Option SendData)
    (scheduledAt : Option String) : SendResult :=
  match buildEmailData db environmentId userId data with
  | .error e => ⟨.error e, [], []⟩
  | .ok emailData =>
      dispatchPhase transport emailTemplateType environmentId
        (getByType db emailTemplateType environmentId)
        (renderPhase ejs (getByType db emailTemplateType environmentId)
          emailData emailTemplateType environmentId)
        toAddr scheduledAt

/-- The static identity table keyed by the `EmailInternalFromTypes`
values (`'support'` and `'founder'`); `url` is `process.env.API_ROOT_URL`,
passed in as a parameter. -/
structure InternalEmailIdentity where
  fromAddr : String
  url : Option String
deriving DecidableEq, Repr

/-- The property names every plain JS object literal inherits from
`Object.prototype`; each of them holds a function or object, i.e. a
truthy value. -/
def objectPrototypeKeys : List String :=
  ["constructor", "hasOwnProperty", "isPrototypeOf", "propertyIsEnumerable",
   "toLocaleString", "toString", "valueOf", "__proto__",
   "__defineGetter__", "__defineSetter__", "__lookupGetter__",
   "__lookupSetter__"]

/-- Outcome of the JS bracket lookup `internalEmails[from]` on the
object literal: one of the two own entries, a truthy value inherited
from `Object.prototype` (for `from` such as `"constructor"` or
`"toString"`), or `undefined`. -/
inductive InternalLookup where
  | identity : InternalEmailIdentity → InternalLookup
  | inherited : InternalLookup
  | absent : InternalLookup
deriving DecidableEq, Repr

/-- `internalEmails`: models the JS object-literal lookup
`internalEmails[from]`.  The own keys are the `EmailInternalFromTypes`
values `'support'` and `'founder'`; any `Object.prototype` property name
also resolves — to a truthy inherited function or object, not to an
identity record — and only the remaining channels give `undefined`. -/
def internalEmails (apiRootUrl : Option String) (channel : String) :
    InternalLookup :=
  if channel == "support" then
    .identity ⟨"ThonLabs Support Team <support@thonlabs.io>", apiRootUrl⟩
  else if channel == "founder" then
    .identity ⟨"Gus from ThonLabs <gus@thonlabs.io>", apiRootUrl⟩
  else if channel ∈ objectPrototypeKeys then
    .inherited
  else .absent

/-- The identity value read off a truthy inherited `Object.prototype`
member: its `from` property is undefined (encoded through `jsShow`, the
model's rendering of the JS `undefined` value), and it has no url. -/
def inheritedIdentity : InternalEmailIdentity := ⟨jsShow none, none⟩

/-- The call tuple `EmailService.sendInternal` hands to the transport
(no `replyTo` key is supplied). -/
def mkInternalPayload {α : Type} (render : α → String)
    (ie : InternalEmailIdentity) (toAddr subject : String) (content : α)
    (scheduledAt : Option String) : Payload :=
  { fromAddr := ie.fromAddr, toAddr := toAddr, subject := some subject,
    html := some (render content), replyTo := none,
    scheduledAt := scheduledAt }

/-- The transport call and outcome logging shared by every truthy
`internalEmails` lookup result in `EmailService.sendInternal`. -/
def internalDispatch {α : Type} (render : α → String)
    (transport : Payload → Except String Unit)
    (ie : InternalEmailIdentity) (toAddr subject : String) (content : α)
    (scheduledAt : Option String) : SendResult :=
  match transport (mkInternalPayload render ie toAddr subject content scheduledAt) with
  | .ok _ => ⟨.ok (), [.internalSent subject],
      [mkInternalPayload render ie toAddr subject content scheduledAt]⟩
  | .error _ => ⟨.ok (), [.internalDispatchError subject],
      [mkInternalPayload render ie toAddr subject content scheduledAt]⟩

/-- `EmailService.sendInternal`: the whole body sits in one `try` — a
falsy `internalEmails[from]` lookup is logged as an invalid channel and
the method returns; any truthy lookup — an own identity, but also a
member inherited from `Object.prototype` — skips the guard, so the
pre-rendered component is converted to markup and handed to the
transport, whose success or failure is logged; nothing escapes the
`catch`.  `render` is the component-to-markup collaborator. -/
def sendInternal {α : Type} (render : α → String)
    (transport : Payload → Except String Unit) (apiRootUrl : Option String)
    (channel : String) (toAddr : String) (subject : String) (content : α)
    (scheduledAt : Option String) : SendResult :=
  match internalEmails apiRootUrl channel with
  | .absent => ⟨.ok (), [.invalidInternalFrom channel], []⟩
  | .identity ie => internalDispatch render transport ie toAddr subject content scheduledAt
  | .inherited =>
      internalDispatch render transport inheritedIdentity toAddr subject content
        scheduledAt

/-! ## The environment-data controller surface -/

/-- Modelled from the spec: `EnvironmentService.getData`
(`environment.service.ts`, absent from the sources) returns the legacy
environment columns — name, appURL and the owning project's summary —
as a flat mapping. -/
def EnvironmentService.getData (db : Db) (environmentId : String) :
    List (String × Json) :=
  match db.environments.find? (fun e => e.id == environmentId) with
  | none => []
  | some e =>
      [("name", Json.str e.name),
       ("appURL", match e.appURL with | some u => Json.str u | none => Json.null),
       ("appName", match db.projects.find? (fun p => p.id == e.projectId) with
                   | some p => Json.str p.appName
                   | none => Json.null)]

/-- `EnvironmentDataController.fetchAppData` (`GET /app`): merges the
legacy fields with the service fetch, `{ ...envLegacyData, ...envData }`.
The controller passes `query.ids` on to `EnvironmentDataService.fetch`,
but that method's declaration takes only `environmentId`, so the key
list is dropped. -/
def EnvironmentDataController.fetchAppData (db : Db) (store : Store)
    (environmentId : String) (ids : List String) : List (String × Json) :=
  EnvironmentService.getData db environmentId ++
    EnvironmentDataService.fetch store environmentId

/-! ## Helper lemmas about the environment-data service -/

/-- A missing row makes `get` answer NotFound with the raw id in the
message. -/
theorem get_eq_err_of_lookup_none {store : Store} {E K : String}
    (h : EnvironmentDataService.lookupRow store E K = none) :
    EnvironmentDataService.get store E K =
      DataReturn.err StatusCodes.NotFound
        ("Environment data ID " ++ K ++ " not found") := by
  unfold EnvironmentDataService.get
  rw [h]

/-- A present row makes `get` answer its value. -/
theorem get_eq_ok_of_lookup_some {store : Store} {E K : String} {r : EnvDataRow}
    (h : EnvironmentDataService.lookupRow store E K = some r) :
    EnvironmentDataService.get store E K = DataReturn.ok r.value := by
  unfold EnvironmentDataService.get
  rw [h]

/-- After filtering out every row matched by the `(camelCase K, E)`
predicate, the lookup finds nothing. -/
theorem lookupRow_filter_out_eq_none (store : Store) (E K : String) :
    EnvironmentDataService.lookupRow
      (store.filter (fun r => !(r.id == camelCase K && r.environmentId == E)))
      E K = none := by
  unfold EnvironmentDataService.lookupRow
  rw [List.find?_eq_none]
  intro x hx
  have hmem := List.mem_filter.mp hx
  intro hpx
  rw [hpx] at hmem
  exact Bool.noConfusion hmem.2

/-! ## Claim theorems: environment data -/

/-- **C1** (settled against the schema, which contradicts the claim):
`environment_data` declares `id String @id` — a single-column primary
key — so key uniqueness is global, not scoped to `(environmentId, id)`.
Concretely, with `enable_signup` stored under environment `env2`,
upserting the same key under the distinct environment `env1` conflicts:
the scoped `where` lookup misses, the create collides with `env2`'s row
on the primary key, and the store raises a unique violation.  The schema
constraint itself rejects a table holding the key under both
environments. -/
theorem envData_sameKey_twoEnvironments_conflict :
    EnvironmentDataService.upsert [⟨"enableSignup", Json.bool false, "env2"⟩]
        "env1" "enable_signup" (Json.bool true) =
      Except.error DbError.uniqueViolation ∧
    ¬ Store.globalIdUnique
        [⟨"enableSignup", Json.bool true, "env1"⟩,
         ⟨"enableSignup", Json.bool false, "env2"⟩] := by
  refine ⟨by decide, fun h => ?_⟩
  exact (List.pairwise_cons.mp h).1 _ (List.mem_cons_self _ _) rfl

/-- **C2** (settled against the code, which contradicts the claim):
`EnvironmentDataService.fetch` is declared with only `environmentId` and
returns every row of the environment, so the key list supplied to
`fetchAppData` does not filter anything.  With `enableSignUp` and
`secretFlag` stored under `env1` and the key list
`[enableSignUp, enableSignUpB2BOnly]`, the result contains `secretFlag`
— a row whose id is outside the given key list — while the absent key
`enableSignUpB2BOnly` is (as claimed) omitted rather than null-valued. -/
theorem fetchSubset_ignores_key_filter :
    (EnvironmentDataController.fetchAppData
        ⟨[], [⟨"env1", "App One", some "https://one.example", "proj1"⟩],
         [⟨"proj1", "App One"⟩], []⟩
        [⟨"enableSignUp", Json.bool true, "env1"⟩,
         ⟨"secretFlag", Json.str "hidden", "env1"⟩]
        "env1" ["enableSignUp", "enableSignUpB2BOnly"]).map Prod.fst =
      ["name", "appURL", "appName", "enableSignUp", "secretFlag"] ∧
    "secretFlag" ∉ (["enableSignUp", "enableSignUpB2BOnly"] : List String) ∧
    "enableSignUpB2BOnly" ∉
      (EnvironmentDataController.fetchAppData
        ⟨[], [⟨"env1", "App One", some "https://one.example", "proj1"⟩],
         [⟨"proj1", "App One"⟩], []⟩
        [⟨"enableSignUp", Json.bool true, "env1"⟩,
         ⟨"secretFlag", Json.str "hidden", "env1"⟩]
        "env1" ["enableSignUp", "enableSignUpB2BOnly"]).map Prod.fst := by
  decide

/-- **C4** (settled against the code, which contradicts the claim): the
upsert/getOne round trip breaks because `upsert` computes its `where`
key by applying `camelCase` a second time to the already-normalized id,
and `camelCase` is not idempotent.  For the key `"X B C"`:
the first upsert stores the row under `"xBC"` and the round trip still
closes, but a second upsert of the very same key looks up
`camelCase "xBC" = "xBc"`, misses, attempts a create of `"xBC"`, and
dies with a unique violation — so after `upsert(E, {id: K, value: V})`
on that (reachable) store, `getOne(E, K)` still answers the old value,
not `V`. -/
theorem upsert_where_key_breaks_roundtrip :
    EnvironmentDataService.upsert [] "env1" "X B C" (Json.num 1) =
      Except.ok ([⟨"xBC", Json.num 1, "env1"⟩], ⟨"xBC", Json.num 1, "env1"⟩) ∧
    camelCase "X B C" = "xBC" ∧
    camelCase "xBC" = "xBc" ∧
    EnvironmentDataService.upsert [⟨"xBC", Json.num 1, "env1"⟩] "env1" "X B C"
        (Json.num 2) =
      Except.error DbError.uniqueViolation ∧
    EnvironmentDataService.get [⟨"xBC", Json.num 1, "env1"⟩] "env1" "X B C" =
      DataReturn.ok (Json.num 1) := by
  decide

/-- **C7**: `delete(E, K)` with no row stored under the normalized key
returns NotFound and leaves the store untouched, and `getOne(E, K)` is
NotFound too; when the row does exist, `delete` removes it, after which
the lookup misses, a second delete is again the NotFound error (not a
no-op success), and that second delete changes nothing. -/
theorem envData_delete_semantics (store : Store) (E K : String) :
    (EnvironmentDataService.lookupRow store E K = none →
      EnvironmentDataService.delete store E K =
        (store, some (StatusCodes.NotFound,
          "Environment data ID " ++ K ++ " not found")) ∧
      EnvironmentDataService.get store E K =
        DataReturn.err StatusCodes.NotFound
          ("Environment data ID " ++ K ++ " not found")) ∧
    (∀ r, EnvironmentDataService.lookupRow store E K = some r →
      (EnvironmentDataService.delete store E K).2 = none ∧
      EnvironmentDataService.lookupRow
        (EnvironmentDataService.delete store E K).1 E K = none ∧
      EnvironmentDataService.delete (EnvironmentDataService.delete store E K).1 E K =
        ((EnvironmentDataService.delete store E K).1,
         some (StatusCodes.NotFound,
           "Environment data ID " ++ K ++ " not found"))) := by
  constructor
  · intro h
    refine ⟨?_, get_eq_err_of_lookup_none h⟩
    unfold EnvironmentDataService.delete
    rw [get_eq_err_of_lookup_none h]
  · intro r h
    have hdel : EnvironmentDataService.delete store E K =
        (store.filter (fun r => !(r.id == camelCase K && r.environmentId == E)),
         none) := by
      unfold EnvironmentDataService.delete
      rw [get_eq_ok_of_lookup_some h]
    refine ⟨by rw [hdel], ?_, ?_⟩
    · rw [hdel]
      exact lookupRow_filter_out_eq_none store E K
    · rw [hdel]
      have h2 : EnvironmentDataService.lookupRow
          (store.filter (fun r => !(r.id == camelCase K && r.environmentId == E)))
          E K = none := lookupRow_filter_out_eq_none store E K
      unfold EnvironmentDataService.delete
      rw [get_eq_err_of_lookup_none h2]

/-- Witness for `envData_delete_semantics`: a store holding only
`otherKey` under `env1`, probed for the missing key `missing`, and a
store holding `enableSignup`, probed for `enable_signup`. -/
theorem envData_delete_semantics_witness :
    (EnvironmentDataService.lookupRow [⟨"otherKey", Json.null, "env1"⟩]
        "env1" "missing" = none ∧
      EnvironmentDataService.delete [⟨"otherKey", Json.null, "env1"⟩]
        "env1" "missing" =
        ([⟨"otherKey", Json.null, "env1"⟩],
         some (StatusCodes.NotFound, "Environment data ID missing not found"))) ∧
    (EnvironmentDataService.lookupRow [⟨"enableSignup", Json.bool true, "env1"⟩]
        "env1" "enable_signup" = some ⟨"enableSignup", Json.bool true, "env1"⟩ ∧
      EnvironmentDataService.lookupRow
        (EnvironmentDataService.delete [⟨"enableSignup", Json.bool true, "env1"⟩]
          "env1" "enable_signup").1 "env1" "enable_signup" = none) :=
  ⟨⟨by decide,
    ((envData_delete_semantics [⟨"otherKey", Json.null, "env1"⟩] "env1"
      "missing").1 (by decide)).1⟩,
   ⟨by decide,
    ((envData_delete_semantics [⟨"enableSignup", Json.bool true, "env1"⟩] "env1"
      "enable_signup").2 ⟨"enableSignup", Json.bool true, "env1"⟩
      (by decide)).2.1⟩⟩

/-- **C8** (settled against the code, which contradicts the claim): the
two concrete keys of the claim do NOT address the same slot.  lodash
`camelCase` splits `SignUp` at its internal capital, so
`"Enable SignUp"` canonicalizes to `"enableSignUp"` while
`"enable_signup"` canonicalizes to `"enableSignup"`; on the (reachable)
store produced by upserting `enable_signup`, `getOne(E, "enable_signup")`
answers the stored value but `getOne(E, "Enable SignUp")` is NotFound. -/
theorem normalization_divergent_keys_cex :
    camelCase "Enable SignUp" = "enableSignUp" ∧
    camelCase "enable_signup" = "enableSignup" ∧
    EnvironmentDataService.upsert [] "env1" "enable_signup" (Json.bool true) =
      Except.ok ([⟨"enableSignup", Json.bool true, "env1"⟩],
        ⟨"enableSignup", Json.bool true, "env1"⟩) ∧
    EnvironmentDataService.get [⟨"enableSignup", Json.bool true, "env1"⟩]
        "env1" "enable_signup" = DataReturn.ok (Json.bool true) ∧
    EnvironmentDataService.get [⟨"enableSignup", Json.bool true, "env1"⟩]
        "env1" "Enable SignUp" =
      DataReturn.err StatusCodes.NotFound
        "Environment data ID Enable SignUp not found" := by
  decide

/-- **C8 amended**: key normalization is the pure function `camelCase`,
and any two caller-supplied keys with the same canonical form resolve to
the same stored row in every keyed lookup; but `"Enable SignUp"` and
`"enable_signup"` have different canonical forms, so they do not address
the same slot. -/
theorem normalization_pure_same_slot (store : Store) (E K1 K2 : String)
    (h : camelCase K1 = camelCase K2) :
    EnvironmentDataService.lookupRow store E K1 =
      EnvironmentDataService.lookupRow store E K2 ∧
    camelCase "Enable SignUp" ≠ camelCase "enable_signup" := by
  constructor
  · unfold EnvironmentDataService.lookupRow
    rw [h]
  · decide

/-- Witness for `normalization_pure_same_slot`: the cosmetic variants
`"enable signup"` and `"enable_signup"` collapse to the same canonical
form and hence to the same stored row. -/
theorem normalization_pure_same_slot_witness :
    camelCase "enable signup" = camelCase "enable_signup" ∧
    EnvironmentDataService.lookupRow [⟨"enableSignup", Json.bool true, "env1"⟩]
        "env1" "enable signup" =
      EnvironmentDataService.lookupRow [⟨"enableSignup", Json.bool true, "env1"⟩]
        "env1" "enable_signup" :=
  ⟨by decide,
   (normalization_pure_same_slot [⟨"enableSignup", Json.bool true, "env1"⟩]
     "env1" "enable signup" "enable_signup" (by decide)).1⟩

/-! ## Helper lemmas about the email pipeline -/

/-- The dispatch `try` block never rejects: every branch resolves. -/
theorem dispatchPhase_result_ok (transport : Payload → Except String Unit)
    (emailTemplateType : EmailTemplates) (environmentId : String)
    (t? : Option EmailTemplate) (r : RenderOut)
    (toAddr : String) (scheduledAt : Option String) :
    (dispatchPhase transport emailTemplateType environmentId t? r toAddr
      scheduledAt).result = Except.ok () := by
  unfold dispatchPhase
  split
  · rfl
  · split
    · rfl
    · rfl

/-- When a payload handed to the transport fails, the dispatch `catch`
logs the dispatch error for the template type and environment. -/
theorem dispatchPhase_failure_logged (transport : Payload → Except String Unit)
    (emailTemplateType : EmailTemplates) (environmentId : String)
    (t? : Option EmailTemplate) (r : RenderOut)
    (toAddr : String) (scheduledAt : Option String) :
    ∀ p e, p ∈ (dispatchPhase transport emailTemplateType environmentId t? r
        toAddr scheduledAt).calls →
      transport p = Except.error e →
      LogEntry.dispatchError emailTemplateType environmentId ∈
        (dispatchPhase transport emailTemplateType environmentId t? r toAddr
          scheduledAt).logs := by
  intro p e hp htr
  cases t? with
  | none => simp [dispatchPhase] at hp
  | some t =>
    simp only [dispatchPhase] at hp ⊢
    cases h : transport (mkPayload t r toAddr scheduledAt) with
    | ok _ =>
        rw [h] at hp
        simp only [List.mem_singleton] at hp
        rw [hp] at htr
        rw [htr] at h
        exact Except.noConfusion h
    | error _ =>
        simp [h]

/-- When the optional `userId` is either absent, empty, or resolvable in
the user table, the context enrichment resolves. -/
theorem buildEmailData_ok_of_user_found (db : Db) (environmentId : String)
    (userId : Option String) (data : Option SendData)
    (h : ∀ u, userId = some u → u ≠ "" → (getUserData db u).isSome) :
    ∃ d, buildEmailData db environmentId userId data = Except.ok d := by
  unfold buildEmailData
  cases userId with
  | none => exact ⟨_, rfl⟩
  | some u =>
    by_cases hu : u = ""
    · subst hu
      exact ⟨_, rfl⟩
    · have hsome := h u rfl hu
      simp only [jsTruthy, ne_eq, Option.getD_some]
      rw [if_pos (by simpa using hu)]
      cases hlookup : getUserData db u with
      | none => rw [hlookup] at hsome; exact absurd hsome (by simp)
      | some uu => exact ⟨_, rfl⟩

/-- After any of the four render failures — render values with no html
and the render-error log line — the dispatch block still resolves, keeps
the render-error line, and hands the transport exactly one payload whose
html is undefined. -/
theorem dispatchPhase_after_render_failure (transport : Payload → Except String Unit)
    (emailTemplateType : EmailTemplates) (environmentId : String)
    (t : EmailTemplate) (r : RenderOut) (toAddr : String)
    (scheduledAt : Option String) (hr : r.html = none)
    (hlog : r.logs = [LogEntry.renderError emailTemplateType environmentId]) :
    (dispatchPhase transport emailTemplateType environmentId (some t) r toAddr
      scheduledAt).result = Except.ok () ∧
    LogEntry.renderError emailTemplateType environmentId ∈
      (dispatchPhase transport emailTemplateType environmentId (some t) r toAddr
        scheduledAt).logs ∧
    (dispatchPhase transport emailTemplateType environmentId (some t) r toAddr
      scheduledAt).calls.map Payload.html = [none] := by
  simp only [dispatchPhase]
  cases h : transport (mkPayload t r toAddr scheduledAt) with
  | ok _ => exact ⟨rfl, by simp [hlog], by simp [mkPayload, hr]⟩
  | error _ => exact ⟨rfl, by simp [hlog], by simp [mkPayload, hr]⟩

/-- The internal transport call and outcome logging never reject. -/
theorem internalDispatch_result_ok {α : Type} (render : α → String)
    (transport : Payload → Except String Unit) (ie : InternalEmailIdentity)
    (toAddr subject : String) (content : α) (scheduledAt : Option String) :
    (internalDispatch render transport ie toAddr subject content
      scheduledAt).result = Except.ok () := by
  unfold internalDispatch
  split
  · rfl
  · rfl

/-- A failing internal transport call is logged with the subject. -/
theorem internalDispatch_failure_logged {α : Type} (render : α → String)
    (transport : Payload → Except String Unit) (ie : InternalEmailIdentity)
    (toAddr subject : String) (content : α) (scheduledAt : Option String) :
    ∀ p e, p ∈ (internalDispatch render transport ie toAddr subject content
        scheduledAt).calls →
      transport p = Except.error e →
      LogEntry.internalDispatchError subject ∈
        (internalDispatch render transport ie toAddr subject content
          scheduledAt).logs := by
  intro p e hp htr
  simp only [internalDispatch] at hp ⊢
  cases h : transport (mkInternalPayload render ie toAddr subject content
      scheduledAt) with
  | ok _ =>
      rw [h] at hp
      simp only [List.mem_singleton] at hp
      rw [hp] at htr
      rw [htr] at h
      exact Except.noConfusion h
  | error _ => simp [h]

/-! ## Concrete fixtures used by counterexamples and witnesses -/

/-- A text-template evaluator that succeeds on every template, echoing
the template text. -/
def ejsOk : Option String → SendData → Except String String :=
  fun tmpl _ => Except.ok (jsShow tmpl)

/-- A text-template evaluator that throws exactly on the
`"FROMNAME"` template text. -/
def ejsFailFrom : Option String → SendData → Except String String :=
  fun tmpl _ =>
    if tmpl == some "FROMNAME" then Except.error "render boom"
    else Except.ok (jsShow tmpl)

/-- A text-template evaluator that throws exactly on the
`"CONTENT"` template text. -/
def ejsFailContent : Option String → SendData → Except String String :=
  fun tmpl _ =>
    if tmpl == some "CONTENT" then Except.error "content boom"
    else Except.ok (jsShow tmpl)

/-- A transport that accepts every payload. -/
def transportOk : Payload → Except String Unit := fun _ => Except.ok ()

/-- A transport that rejects every payload. -/
def transportFail : Payload → Except String Unit :=
  fun _ => Except.error "transport down"

/-- An enabled Welcome template under environment `env1`. -/
def tplWelcome : EmailTemplate :=
  { type := .Welcome, name := "Welcome", subject := "SUBJECT",
    fromName := "FROMNAME", fromEmail := "no-reply@thonlabs.io",
    content := "CONTENT", preview := some "PREVIEW", replyTo := none,
    enabled := true, environmentId := "env1" }

/-- A store holding only `tplWelcome`. -/
def dbWelcome : Db := ⟨[tplWelcome], [], [], []⟩

/-! ## Claim theorems: email pipeline -/

/-- **C3 counterexample**: with an enabled template whose `fromName`
evaluation throws, the error is caught and logged and `send` resolves —
but the transport IS called (the dispatch `try` block runs regardless),
so the send is not the claimed transport no-op. -/
theorem send_renderError_still_calls_transport_cex :
    (send dbWelcome ejsFailFrom transportOk "to@example.com"
        EmailTemplates.Welcome "env1" none none none).calls ≠ [] ∧
    LogEntry.renderError EmailTemplates.Welcome "env1" ∈
      (send dbWelcome ejsFailFrom transportOk "to@example.com"
        EmailTemplates.Welcome "env1" none none none).logs ∧
    (send dbWelcome ejsFailFrom transportOk "to@example.com"
        EmailTemplates.Welcome "env1" none none none).result = Except.ok () := by
  decide

/-- **C3 amended**: when text-template evaluation of the resolved
template throws — on any of `fromName`, `subject`, `preview`, or
`content` — the error is caught and logged with the template type and
environment id and no error propagates to the caller; however the send
does NOT degrade to a transport no-op: the dispatch block still hands
the transport exactly one payload, whose html is undefined (as are the
other rendered fields whose evaluation never completed; the from header
interpolates the string `"undefined"` when the from-name is among
them). -/
theorem send_renderError_caught_logged_still_dispatches
    (db : Db) (ejs : Option String → SendData → Except String String)
    (transport : Payload → Except String Unit) (toAddr : String)
    (emailTemplateType : EmailTemplates) (environmentId : String)
    (userId : Option String) (data : Option SendData) (scheduledAt : Option String)
    (t : EmailTemplate) (ctx : SendData)
    (ht : getByType db emailTemplateType environmentId = some t)
    (hctx : buildEmailData db environmentId userId data = Except.ok ctx)
    (hfail :
      (∃ m, ejs (some t.fromName) ctx = Except.error m) ∨
      (∃ fn m, ejs (some t.fromName) ctx = Except.ok fn ∧
        ejs (some t.subject) ctx = Except.error m) ∨
      (∃ fn sj m, ejs (some t.fromName) ctx = Except.ok fn ∧
        ejs (some t.subject) ctx = Except.ok sj ∧
        ejs t.preview ctx = Except.error m) ∨
      (∃ fn sj p m, ejs (some t.fromName) ctx = Except.ok fn ∧
        ejs (some t.subject) ctx = Except.ok sj ∧
        ejs t.preview ctx = Except.ok p ∧
        ejs (some t.content) { ctx with preview := some p } =
          Except.error m)) :
    (send db ejs transport toAddr emailTemplateType environmentId userId data
        scheduledAt).result = Except.ok () ∧
    LogEntry.renderError emailTemplateType environmentId ∈
      (send db ejs transport toAddr emailTemplateType environmentId userId data
        scheduledAt).logs ∧
    (send db ejs transport toAddr emailTemplateType environmentId userId data
        scheduledAt).calls.map Payload.html = [none] := by
  rcases hfail with ⟨m, hm⟩ | ⟨fn, m, hfn, hm⟩ | ⟨fn, sj, m, hfn, hsj, hm⟩ |
    ⟨fn, sj, p, m, hfn, hsj, hp, hm⟩
  · have hsend : send db ejs transport toAddr emailTemplateType environmentId
        userId data scheduledAt =
        dispatchPhase transport emailTemplateType environmentId (some t)
          ⟨none, none, none, [.renderError emailTemplateType environmentId]⟩
          toAddr scheduledAt := by
      simp only [send, hctx, ht, renderPhase, hm]
    rw [hsend]
    exact dispatchPhase_after_render_failure _ _ _ _ _ _ _ rfl rfl
  · have hsend : send db ejs transport toAddr emailTemplateType environmentId
        userId data scheduledAt =
        dispatchPhase transport emailTemplateType environmentId (some t)
          ⟨some fn, none, none, [.renderError emailTemplateType environmentId]⟩
          toAddr scheduledAt := by
      simp only [send, hctx, ht, renderPhase, hfn, hm]
    rw [hsend]
    exact dispatchPhase_after_render_failure _ _ _ _ _ _ _ rfl rfl
  · have hsend : send db ejs transport toAddr emailTemplateType environmentId
        userId data scheduledAt =
        dispatchPhase transport emailTemplateType environmentId (some t)
          ⟨some fn, some sj, none,
           [.renderError emailTemplateType environmentId]⟩
          toAddr scheduledAt := by
      simp only [send, hctx, ht, renderPhase, hfn, hsj, hm]
    rw [hsend]
    exact dispatchPhase_after_render_failure _ _ _ _ _ _ _ rfl rfl
  · have hsend : send db ejs transport toAddr emailTemplateType environmentId
        userId data scheduledAt =
        dispatchPhase transport emailTemplateType environmentId (some t)
          ⟨some fn, some sj, none,
           [.renderError emailTemplateType environmentId]⟩
          toAddr scheduledAt := by
      simp only [send, hctx, ht, renderPhase, hfn, hsj, hp, hm]
    rw [hsend]
    exact dispatchPhase_after_render_failure _ _ _ _ _ _ _ rfl rfl

/-- Witness for `send_renderError_caught_logged_still_dispatches`:
two instances against the fixture store with the always-accepting
transport — an evaluator failing on the `"FROMNAME"` template (the
first failure site) and one failing on the `"CONTENT"` template (the
last); both resolve, log the render error, and still make exactly one
transport call with undefined html. -/
theorem send_renderError_caught_logged_still_dispatches_witness :
    (getByType dbWelcome EmailTemplates.Welcome "env1" = some tplWelcome ∧
      ejsFailFrom (some tplWelcome.fromName) {} = Except.error "render boom" ∧
      (send dbWelcome ejsFailFrom transportOk "to@example.com"
          EmailTemplates.Welcome "env1" none none none).calls.map
        Payload.html = [none] ∧
      (send dbWelcome ejsFailFrom transportOk "to@example.com"
          EmailTemplates.Welcome "env1" none none none).result =
        Except.ok ()) ∧
    (ejsFailContent (some tplWelcome.content)
        { preview := some "PREVIEW" } = Except.error "content boom" ∧
      (send dbWelcome ejsFailContent transportOk "to@example.com"
          EmailTemplates.Welcome "env1" none none none).calls.map
        Payload.html = [none] ∧
      (send dbWelcome ejsFailContent transportOk "to@example.com"
          EmailTemplates.Welcome "env1" none none none).result =
        Except.ok ()) := by
  have h1 := send_renderError_caught_logged_still_dispatches dbWelcome
    ejsFailFrom transportOk "to@example.com" EmailTemplates.Welcome "env1"
    none none none tplWelcome {} (by decide) (by decide)
    (Or.inl ⟨"render boom", by decide⟩)
  have h2 := send_renderError_caught_logged_still_dispatches dbWelcome
    ejsFailContent transportOk "to@example.com" EmailTemplates.Welcome "env1"
    none none none tplWelcome {} (by decide) (by decide)
    (Or.inr (Or.inr (Or.inr ⟨"FROMNAME", "SUBJECT", "PREVIEW", "content boom",
      by decide, by decide, by decide, by decide⟩)))
  exact ⟨⟨by decide, by decide, h1.2.2, h1.1⟩,
         ⟨by decide, h2.2.2, h2.1⟩⟩

/-- **C5 counterexample**: an invocation against an environment with no
enabled template of the requested type does NOT always complete without
throwing: when the optional `userId` is supplied but matches no user
row, the enrichment reads `user.fullName` on `null` outside any `try`,
and the call rejects (though the transport is still never reached). -/
theorem send_missingTemplate_can_throw_cex :
    getByType ⟨[], [], [], []⟩ EmailTemplates.Welcome "env1" = none ∧
    (send ⟨[], [], [], []⟩ ejsOk transportOk "to@example.com"
        EmailTemplates.Welcome "env1" (some "u1") none none).result =
      Except.error nullUserError ∧
    (send ⟨[], [], [], []⟩ ejsOk transportOk "to@example.com"
        EmailTemplates.Welcome "env1" (some "u1") none none).calls = [] := by
  decide

/-- **C5 amended**: against an environment with no enabled template of
the requested type, `send` never calls the outbound transport — on
every such invocation, unconditionally; and provided the supplied
`userId`, when truthy, resolves to an existing user row, it also
completes without throwing (the missing-template accesses are caught by
the two `try` blocks). -/
theorem send_without_template_is_noop (db : Db)
    (ejs : Option String → SendData → Except String String)
    (transport : Payload → Except String Unit) (toAddr : String)
    (emailTemplateType : EmailTemplates) (environmentId : String)
    (userId : Option String) (data : Option SendData) (scheduledAt : Option String)
    (ht : getByType db emailTemplateType environmentId = none) :
    (send db ejs transport toAddr emailTemplateType environmentId userId data
        scheduledAt).calls = [] ∧
    ((∀ u, userId = some u → u ≠ "" → (getUserData db u).isSome) →
      (send db ejs transport toAddr emailTemplateType environmentId userId data
        scheduledAt).result = Except.ok ()) := by
  constructor
  · cases hb : buildEmailData db environmentId userId data with
    | error e => simp [send, hb]
    | ok d => simp [send, hb, ht, dispatchPhase]
  · intro huser
    obtain ⟨d, hd⟩ :=
      buildEmailData_ok_of_user_found db environmentId userId data huser
    simp only [send, hd, ht]
    rfl

/-- Witness for `send_without_template_is_noop`: a store with one user
and no templates, a truthy `userId` resolving to that user. -/
theorem send_without_template_is_noop_witness :
    (getByType ⟨[], [], [], [⟨"u1", some "Ada Lovelace", "ada@example.com",
        none, true, none⟩]⟩ EmailTemplates.Welcome "env1" = none ∧
      (send ⟨[], [], [], [⟨"u1", some "Ada Lovelace", "ada@example.com",
          none, true, none⟩]⟩ ejsOk transportOk "to@example.com"
          EmailTemplates.Welcome "env1" (some "u1") none none).calls = [] ∧
      (send ⟨[], [], [], [⟨"u1", some "Ada Lovelace", "ada@example.com",
          none, true, none⟩]⟩ ejsOk transportOk "to@example.com"
          EmailTemplates.Welcome "env1" (some "u1") none none).result =
        Except.ok ()) ∧
    (send ⟨[], [], [], []⟩ ejsOk transportOk "to@example.com"
        EmailTemplates.Welcome "env1" (some "dangling") none none).calls =
      [] := by
  have h := send_without_template_is_noop
    ⟨[], [], [], [⟨"u1", some "Ada Lovelace", "ada@example.com", none, true,
      none⟩]⟩ ejsOk transportOk "to@example.com" EmailTemplates.Welcome "env1"
    (some "u1") none none (by decide)
  have h2 := send_without_template_is_noop ⟨[], [], [], []⟩ ejsOk transportOk
    "to@example.com" EmailTemplates.Welcome "env1" (some "dangling") none none
    (by decide)
  exact ⟨⟨by decide, h.1, h.2 (by intro u hu hne; cases hu; decide)⟩, h2.1⟩

/-- **C6**: in a send that renders a database template, the `preview`
template is evaluated against the enriched data context first, and the
`content` template is evaluated against that same context extended with
the key `preview` bound to the evaluated preview string — the payload
handed to the transport carries exactly that content rendering. -/
theorem send_preview_rendered_before_content (db : Db)
    (ejs : Option String → SendData → Except String String)
    (transport : Payload → Except String Unit) (toAddr : String)
    (emailTemplateType : EmailTemplates) (environmentId : String)
    (userId : Option String) (data : Option SendData) (scheduledAt : Option String)
    (t : EmailTemplate) (ctx : SendData) (fn sj p hv : String)
    (ht : getByType db emailTemplateType environmentId = some t)
    (hctx : buildEmailData db environmentId userId data = Except.ok ctx)
    (hfn : ejs (some t.fromName) ctx = Except.ok fn)
    (hsj : ejs (some t.subject) ctx = Except.ok sj)
    (hp : ejs t.preview ctx = Except.ok p)
    (hhv : ejs (some t.content) { ctx with preview := some p } = Except.ok hv) :
    (send db ejs transport toAddr emailTemplateType environmentId userId data
        scheduledAt).calls =
      [{ fromAddr := fn ++ " <" ++ t.fromEmail ++ ">", toAddr := toAddr,
         subject := some sj, html := some hv, replyTo := t.replyTo,
         scheduledAt := scheduledAt }] := by
  have hsend : send db ejs transport toAddr emailTemplateType environmentId
      userId data scheduledAt =
      dispatchPhase transport emailTemplateType environmentId (some t)
        ⟨some fn, some sj, some hv, []⟩ toAddr scheduledAt := by
    simp only [send, hctx, ht, renderPhase, hfn, hsj, hp, hhv]
  rw [hsend]
  simp only [dispatchPhase]
  cases h : transport (mkPayload t ⟨some fn, some sj, some hv, []⟩ toAddr
      scheduledAt) with
  | ok _ => simp [mkPayload, jsShow]
  | error _ => simp [mkPayload, jsShow]

/-- Witness for `send_preview_rendered_before_content`: the fixture
store with the always-succeeding echo evaluator; the content rendering
receives the context whose `preview` field holds the evaluated
`"PREVIEW"` string. -/
theorem send_preview_rendered_before_content_witness :
    getByType dbWelcome EmailTemplates.Welcome "env1" = some tplWelcome ∧
    ejsOk tplWelcome.preview {} = Except.ok "PREVIEW" ∧
    (send dbWelcome ejsOk transportOk "to@example.com" EmailTemplates.Welcome
        "env1" none none none).calls =
      [{ fromAddr := "FROMNAME <no-reply@thonlabs.io>",
         toAddr := "to@example.com", subject := some "SUBJECT",
         html := some "CONTENT", replyTo := none, scheduledAt := none }] :=
  ⟨by decide, by decide,
   by
    have h := send_preview_rendered_before_content dbWelcome ejsOk transportOk
      "to@example.com" EmailTemplates.Welcome "env1" none none none tplWelcome
      {} "FROMNAME" "SUBJECT" "PREVIEW" "CONTENT" (by decide) (by decide)
      (by decide) (by decide) (by decide) (by decide)
    exact h⟩

/-- **C9**: transport failures never propagate.  Whenever `send` has
handed any payload to the transport its promise resolves (the dispatch
`catch` swallows the failure), and a failing payload is logged as a
dispatch error with the template type and environment id; `sendInternal`
resolves on every input, and its failing payloads are logged with the
subject. -/
theorem email_dispatch_failures_never_propagate {α : Type} (db : Db)
    (ejs : Option String → SendData → Except String String)
    (transport : Payload → Except String Unit) (toAddr : String)
    (emailTemplateType : EmailTemplates) (environmentId : String)
    (userId : Option String) (data : Option SendData) (scheduledAt : Option String)
    (render : α → String) (apiRootUrl : Option String)
    (channel toAddr2 subject2 : String) (content2 : α) (sched2 : Option String) :
    ((send db ejs transport toAddr emailTemplateType environmentId userId data
        scheduledAt).calls ≠ [] →
      (send db ejs transport toAddr emailTemplateType environmentId userId data
        scheduledAt).result = Except.ok ()) ∧
    (∀ p e, p ∈ (send db ejs transport toAddr emailTemplateType environmentId
        userId data scheduledAt).calls →
      transport p = Except.error e →
      LogEntry.dispatchError emailTemplateType environmentId ∈
        (send db ejs transport toAddr emailTemplateType environmentId userId
          data scheduledAt).logs) ∧
    (sendInternal render transport apiRootUrl channel toAddr2 subject2 content2
        sched2).result = Except.ok () ∧
    (∀ p e, p ∈ (sendInternal render transport apiRootUrl channel toAddr2
        subject2 content2 sched2).calls →
      transport p = Except.error e →
      LogEntry.internalDispatchError subject2 ∈
        (sendInternal render transport apiRootUrl channel toAddr2 subject2
          content2 sched2).logs) := by
  refine ⟨?_, ?_, ?_, ?_⟩
  · intro hc
    cases hb : buildEmailData db environmentId userId data with
    | error e =>
        simp only [send, hb] at hc
        exact absurd rfl hc
    | ok d =>
        simp only [send, hb]
        exact dispatchPhase_result_ok transport emailTemplateType environmentId
          (getByType db emailTemplateType environmentId)
          (renderPhase ejs (getByType db emailTemplateType environmentId) d
            emailTemplateType environmentId) toAddr scheduledAt
  · intro p e hp htr
    cases hb : buildEmailData db environmentId userId data with
    | error err => simp [send, hb] at hp
    | ok d =>
        simp only [send, hb] at hp ⊢
        exact dispatchPhase_failure_logged transport emailTemplateType
          environmentId (getByType db emailTemplateType environmentId)
          (renderPhase ejs (getByType db emailTemplateType environmentId) d
            emailTemplateType environmentId) toAddr scheduledAt p e hp htr
  · cases hi : internalEmails apiRootUrl channel with
    | absent => simp [sendInternal, hi]
    | identity ie =>
        simp only [sendInternal, hi]
        exact internalDispatch_result_ok render transport ie toAddr2 subject2
          content2 sched2
    | inherited =>
        simp only [sendInternal, hi]
        exact internalDispatch_result_ok render transport inheritedIdentity
          toAddr2 subject2 content2 sched2
  · intro p e hp htr
    cases hi : internalEmails apiRootUrl channel with
    | absent => simp [sendInternal, hi] at hp
    | identity ie =>
        simp only [sendInternal, hi] at hp ⊢
        exact internalDispatch_failure_logged render transport ie toAddr2
          subject2 content2 sched2 p e hp htr
    | inherited =>
        simp only [sendInternal, hi] at hp ⊢
        exact internalDispatch_failure_logged render transport inheritedIdentity
          toAddr2 subject2 content2 sched2 p e hp htr

/-- Witness for `email_dispatch_failures_never_propagate`: the fixture
store with the echo evaluator and the always-failing transport — the
tenant send and an internal support send both resolve and log the
dispatch failure. -/
theorem email_dispatch_failures_never_propagate_witness :
    (send dbWelcome ejsOk transportFail "to@example.com"
        EmailTemplates.Welcome "env1" none none none).result = Except.ok () ∧
    LogEntry.dispatchError EmailTemplates.Welcome "env1" ∈
      (send dbWelcome ejsOk transportFail "to@example.com"
        EmailTemplates.Welcome "env1" none none none).logs ∧
    (sendInternal (fun s : String => s) transportFail none "support"
        "dev@example.com" "Ops report" "body" none).result = Except.ok () ∧
    LogEntry.internalDispatchError "Ops report" ∈
      (sendInternal (fun s : String => s) transportFail none "support"
        "dev@example.com" "Ops report" "body" none).logs := by
  have h := email_dispatch_failures_never_propagate dbWelcome ejsOk
    transportFail "to@example.com" EmailTemplates.Welcome "env1" none none none
    (fun s : String => s) none "support" "dev@example.com" "Ops report" "body"
    none
  refine ⟨h.1 (by decide), ?_, h.2.2.1, ?_⟩
  · exact h.2.1
      { fromAddr := "FROMNAME <no-reply@thonlabs.io>",
        toAddr := "to@example.com", subject := some "SUBJECT",
        html := some "CONTENT", replyTo := none, scheduledAt := none }
      "transport down" (by decide) (by decide)
  · exact h.2.2.2
      { fromAddr := "ThonLabs Support Team <support@thonlabs.io>",
        toAddr := "dev@example.com", subject := some "Ops report",
        html := some "body", replyTo := none, scheduledAt := none }
      "transport down" (by decide) (by decide)

/-- **C10 counterexample**: the channel `"constructor"` is not one of
the enumerated internal identities, yet `internalEmails["constructor"]`
is the truthy `Object.prototype.constructor` inherited through the JS
prototype chain — the `if (!internalEmail)` guard is skipped, no invalid
channel is logged, and the transport IS called, with the undefined
`internalEmail.from` as the from identity (the call still resolves,
since the whole body sits in the `try`). -/
theorem sendInternal_prototype_channel_cex :
    ("constructor" : String) ≠ "support" ∧
    ("constructor" : String) ≠ "founder" ∧
    (sendInternal (fun s : String => s) transportOk none "constructor"
        "dev@example.com" "Hello" "body" none).calls =
      [{ fromAddr := "undefined", toAddr := "dev@example.com",
         subject := some "Hello", html := some "body", replyTo := none,
         scheduledAt := none }] ∧
    LogEntry.invalidInternalFrom "constructor" ∉
      (sendInternal (fun s : String => s) transportOk none "constructor"
        "dev@example.com" "Hello" "body" none).logs ∧
    (sendInternal (fun s : String => s) transportOk none "constructor"
        "dev@example.com" "Hello" "body" none).result = Except.ok () := by
  decide

/-- **C10 amended**: a `sendInternal` whose `from` channel is neither an
enumerated internal identity (`support`, `founder`) nor a property name
inherited from `Object.prototype` logs the invalid channel, makes no
transport call, and resolves.  (For an inherited property name such as
`"constructor"` the lookup is truthy, the guard is skipped, and the
transport is called with an undefined from identity — though the call
still resolves.) -/
theorem sendInternal_unknown_channel_noop {α : Type} (render : α → String)
    (transport : Payload → Except String Unit) (apiRootUrl : Option String)
    (channel toAddr subject : String) (content : α) (scheduledAt : Option String)
    (h1 : channel ≠ "support") (h2 : channel ≠ "founder")
    (h3 : channel ∉ objectPrototypeKeys) :
    sendInternal render transport apiRootUrl channel toAddr subject content
        scheduledAt =
      ⟨Except.ok (), [LogEntry.invalidInternalFrom channel], []⟩ := by
  have hnone : internalEmails apiRootUrl channel = .absent := by
    unfold internalEmails
    rw [if_neg (by simpa using h1), if_neg (by simpa using h2), if_neg h3]
  simp only [sendInternal, hnone]

/-- Witness for `sendInternal_unknown_channel_noop`: the channel
`"marketing"`, which is neither an own identity nor inherited. -/
theorem sendInternal_unknown_channel_noop_witness :
    ("marketing" : String) ≠ "support" ∧ ("marketing" : String) ≠ "founder" ∧
    ("marketing" : String) ∉ objectPrototypeKeys ∧
    sendInternal (fun s : String => s) transportOk none "marketing"
        "dev@example.com" "Hello" "body" none =
      ⟨Except.ok (), [LogEntry.invalidInternalFrom "marketing"], []⟩ :=
  ⟨by decide, by decide, by decide,
   sendInternal_unknown_channel_noop (fun s : String => s) transportOk none
     "marketing" "dev@example.com" "Hello" "body" none (by decide) (by decide)
     (by decide)⟩
